import Mathlib

/-!
Verification development for `src/include/moxie.h` (Moxie, a C99
preprocessor mocking layer for CppUMock).

The header is pure macro text, so the development has two layers:

* a token-level model of the macro-expansion machinery (descriptor
  projections, the arity-indexed `_M_PARAMS_k` family, the boolean
  meta-operators, and the public accessor-name macros), faithful to the
  exact tokens of the source including its slips; and

* a statement-level runtime model of the generated per-function code
  (the `MoxieState` record, the configuration accessors, the wrapped
  dispatcher, and the generated call/stub adapters), obtained by
  translating the C statements of the implementation macros, with the
  external CppUMock collaborator modelled abstractly per the spec's
  collaborator contract (registration events on an actual-call record,
  and the framework's answers about configured return values).

Line numbers in doc comments refer to `src/include/moxie.h`.
-/

namespace Moxie

/-- A C preprocessing token, as far as this development needs to
distinguish them: an identifier or a string literal. -/
inductive CToken where
  | ident (s : String)
  | strLit (s : String)
  deriving DecidableEq

/-- Expansion of `Moxie_reset(FUNC)` (line 30).  The replacement list is
`__mReset_#FUNC`: the identifier `__mReset_` followed by `#` applied to
the parameter, i.e. the stringized argument.  The `#` operator produces
a string literal, not token concatenation. -/
def Moxie_reset (f : String) : List CToken :=
  [CToken.ident "__mReset_", CToken.strLit f]

/-- Expansion of `Moxie_enable(FUNC)` (line 37): `__mEnable_#FUNC`. -/
def Moxie_enable (f : String) : List CToken :=
  [CToken.ident "__mEnable_", CToken.strLit f]

/-- Expansion of `Moxie_setScope(FUNC)` (line 46): `__mSetScope_#FUNC`. -/
def Moxie_setScope (f : String) : List CToken :=
  [CToken.ident "__mSetScope_", CToken.strLit f]

/-- Expansion of `Moxie_setCallFunc(FUNC)` (line 63):
`__mSetCallFunc_#FUNC`. -/
def Moxie_setCallFunc (f : String) : List CToken :=
  [CToken.ident "__mSetCallFunc_", CToken.strLit f]

/-- Expansion of `Moxie_setStubFunc(FUNC)` (line 80):
`__mSetStubFunc_#FUNC`. -/
def Moxie_setStubFunc (f : String) : List CToken :=
  [CToken.ident "__mSetStubFunc_", CToken.strLit f]

/-- The identifier of the reset accessor that `_M_DECLARE_MOCK` declares
(line 342): `__mReset_##FUNC`, formed by `##` token concatenation. -/
def declaredResetName (f : String) : String := "__mReset_" ++ f

/-- The identifier of the enable accessor declared on line 343. -/
def declaredEnableName (f : String) : String := "__mEnable_" ++ f

/-- The identifier of the set-scope accessor declared on line 344. -/
def declaredSetScopeName (f : String) : String := "__mSetScope_" ++ f

/-- The identifier of the set-call-adapter accessor declared on
line 345. -/
def declaredSetCallFuncName (f : String) : String := "__mSetCallFunc_" ++ f

/-- The identifier of the set-return-adapter accessor declared on
line 346. -/
def declaredSetStubFuncName (f : String) : String := "__mSetStubFunc_" ++ f

/-- The descriptor kinds of the `M_PARAM_*` vocabulary
(lines 260-275). -/
inductive PKind where
  | pvoid
  | ms
  | mac
  | pbool
  | pint
  | puint
  | plong
  | pulong
  | pdouble
  | pcharPtr
  | pinPtr
  | poutPtr
  | pinTypePtr
  | poutTypePtr
  | pignore
  | pcustom
  deriving DecidableEq

/-- A parameter descriptor: the tag selected by the `M_PARAM_*` macro
together with its `PTYPE`, `PNAME`, and (for `M_PARAM_CUSTOM`) the
caller-supplied code payload. -/
structure MParam where
  kind : PKind
  ptype : String
  pname : String
  custom : String := ""
  deriving DecidableEq

/-- `M_PARAM_VOID` (line 260): tag `_VOID` with arguments `(void,)`,
i.e. type `void` and an empty name. -/
def M_PARAM_VOID : MParam := ⟨PKind.pvoid, "void", "", ""⟩

/-- `M_PARAM_MS` (line 261): the implicit `MockSupport_c* mockSupport`
mock-support parameter. -/
def M_PARAM_MS : MParam := ⟨PKind.ms, "MockSupport_c*", "mockSupport", ""⟩

/-- `M_PARAM_MAC` (line 262): the implicit `MockActualCall_c* actualCall`
mock-support parameter. -/
def M_PARAM_MAC : MParam := ⟨PKind.mac, "MockActualCall_c*", "actualCall", ""⟩

/-- `M_PARAM_BOOL` (line 263). -/
def M_PARAM_BOOL (t n : String) : MParam := ⟨PKind.pbool, t, n, ""⟩

/-- `M_PARAM_INT` (line 264). -/
def M_PARAM_INT (t n : String) : MParam := ⟨PKind.pint, t, n, ""⟩

/-- `M_PARAM_UINT` (line 265). -/
def M_PARAM_UINT (t n : String) : MParam := ⟨PKind.puint, t, n, ""⟩

/-- `M_PARAM_LONG` (line 266). -/
def M_PARAM_LONG (t n : String) : MParam := ⟨PKind.plong, t, n, ""⟩

/-- `M_PARAM_ULONG` (line 267). -/
def M_PARAM_ULONG (t n : String) : MParam := ⟨PKind.pulong, t, n, ""⟩

/-- `M_PARAM_DOUBLE` (line 268). -/
def M_PARAM_DOUBLE (t n : String) : MParam := ⟨PKind.pdouble, t, n, ""⟩

/-- `M_PARAM_CHAR_PTR` (line 269). -/
def M_PARAM_CHAR_PTR (t n : String) : MParam := ⟨PKind.pcharPtr, t, n, ""⟩

/-- `M_PARAM_IN_PTR` (line 270). -/
def M_PARAM_IN_PTR (t n : String) : MParam := ⟨PKind.pinPtr, t, n, ""⟩

/-- `M_PARAM_OUT_PTR` (line 271). -/
def M_PARAM_OUT_PTR (t n : String) : MParam := ⟨PKind.poutPtr, t, n, ""⟩

/-- `M_PARAM_IN_TYPE_PTR` (line 272). -/
def M_PARAM_IN_TYPE_PTR (t n : String) : MParam := ⟨PKind.pinTypePtr, t, n, ""⟩

/-- `M_PARAM_OUT_TYPE_PTR` (line 273). -/
def M_PARAM_OUT_TYPE_PTR (t n : String) : MParam := ⟨PKind.poutTypePtr, t, n, ""⟩

/-- `M_PARAM_IGNORE` (line 274). -/
def M_PARAM_IGNORE (t n : String) : MParam := ⟨PKind.pignore, t, n, ""⟩

/-- `M_PARAM_CUSTOM` (line 275): carries the caller-supplied code. -/
def M_PARAM_CUSTOM (t n code : String) : MParam := ⟨PKind.pcustom, t, n, code⟩

/-- The `_M_PARAM_TYPE_*` table (lines 277-293): every row, for every
descriptor kind, expands to the descriptor's `PTYPE`. -/
def _M_PARAM_TYPE (p : MParam) : String := p.ptype

/-- The `_M_PARAM_NAME_*` table (lines 295-311): the `_VOID` row expands
to nothing (a comment), every other row expands to `PNAME`. -/
def _M_PARAM_NAME (p : MParam) : Option String :=
  match p.kind with
  | PKind.pvoid => none
  | _ => some p.pname

/-- The `_M_INC_*` table (lines 568-600): `_M_INC_k` is `k + 1` for
`k < 31` and `_M_INC_31` is `31`. -/
def _M_INC (x : Nat) : Nat := if x < 31 then x + 1 else 31

/-- One item of a `_M_PARAMS_k` expansion.  `entry tail idx p` is the
invocation `CALLBACK(FUNC,idx,p)` (the `_TAIL` form of the callback when
`tail` is true, as used by `_M_PARAMS_0`).  `stuck idx rest` records the
breakage of line 507: `_M_PARAMS_8` is missing the `(` after
`_M_PARAMS_7`, so instead of recursing it emits the literal (undefined)
identifier `_M_PARAMS_7CALLBACK` followed by the raw tokens
`,FUNC,_M_INC(INDEX),__VA_ARGS__)`; the remaining descriptors `rest`
appear unprojected inside that token run. -/
inductive PExp where
  | entry (tail : Bool) (idx : Nat) (p : MParam)
  | stuck (idx : Nat) (rest : List MParam)
  deriving DecidableEq

/-- The `_M_PARAMS_k` family (lines 499-530).  `_M_PARAMS_0` applies the
`_TAIL` form of the callback to its `P` argument (dropping any further
arguments); `_M_PARAMS_(k+1)` applies the callback to `P` and recurses
through `_M_PARAMS_k` with an incremented index — except `_M_PARAMS_8`
(line 507), whose missing `(` leaves the recursion unexpanded (see
`PExp.stuck`). -/
def mParamsK : Nat → Nat → List MParam → List PExp
  | _, _, [] => []
  | 0, idx, p :: _ => [PExp.entry true idx p]
  | k + 1, idx, p :: rest =>
    if k + 1 = 8 then
      [PExp.entry false idx p, PExp.stuck (_M_INC idx) rest]
    else
      PExp.entry false idx p :: mParamsK k (_M_INC idx) rest

/-- `_M_N_VA_ARGS` (lines 686-687): a reverse-indexed sentinel scan over
the 32-entry list `31,...,1,0`; for 1 to 32 arguments it selects the
argument count minus one. -/
def _M_N_VA_ARGS (ps : List MParam) : Nat := ps.length - 1

/-- `_M_PARAMS(CALLBACK,FUNC,...)` (line 498): counts the supplied
descriptors with `_M_N_VA_ARGS` and dispatches, via `_M_DCAT` name
indexing, to the `_M_PARAMS_k` expansion with the index seeded at 0. -/
def _M_PARAMS (ps : List MParam) : List PExp :=
  mParamsK (_M_N_VA_ARGS ps) 0 ps

/-- Collects the per-descriptor entries of an expansion under a
projection callback, in order; `none` if the expansion contains the
line-507 breakage and thus is not a well-formed list of projected
entries.  (For each of the four projection callbacks the `_TAIL` form
differs from the plain form only by the trailing comma separator, so the
projected content is the same for tail and non-tail entries.) -/
def pexpEntries {α : Type} (proj : MParam → α) : List PExp → Option (List α)
  | [] => some []
  | PExp.entry _ _ p :: l => (pexpEntries proj l).map (fun xs => proj p :: xs)
  | PExp.stuck _ _ :: _ => none

/-- Runs `_M_PARAMS` over a descriptor list and collects the projected
entries. -/
def projectParams {α : Type} (proj : MParam → α) (ps : List MParam) :
    Option (List α) :=
  pexpEntries proj (_M_PARAMS ps)

/-- `_M_PARAMS_PROTOTYPE` (lines 486-488): the type-only projection,
`_M_PARAM_TYPE(P)` per descriptor. -/
def _M_PARAMS_PROTOTYPE (ps : List MParam) : Option (List String) :=
  projectParams _M_PARAM_TYPE ps

/-- `_M_PARAMS_DECLARATION` (lines 482-484): the type-plus-name
projection, `_M_PARAM_TYPE(P) _M_PARAM_NAME(P)` per descriptor. -/
def _M_PARAMS_DECLARATION (ps : List MParam) :
    Option (List (String × Option String)) :=
  projectParams (fun p => (_M_PARAM_TYPE p, _M_PARAM_NAME p)) ps

/-- `_M_PARAMS_CALL` (lines 490-492): the name-only projection,
`_M_PARAM_NAME(P)` per descriptor. -/
def _M_PARAMS_CALL (ps : List MParam) : Option (List (Option String)) :=
  projectParams _M_PARAM_NAME ps

/-- `_M_PARAMS_FUNC_IMPL` (lines 494-496): the per-descriptor statement
projection; both the plain and `_TAIL` forms are `_M_PARAM_CALLBACK(P)`,
so the projected entry is the descriptor itself, whose callback
statement is interpreted at the runtime layer. -/
def funcImplParams (ps : List MParam) : Option (List MParam) :=
  projectParams id ps

/-- `_M_NOT` (lines 666-667): `_M_CHECK(_M_PCAT(_M_NOT_,x))`; only
`_M_NOT_0` is a probe, so the result token is `1` exactly for the token
`0`, and `0` otherwise. -/
def _M_NOT (x : String) : String := if x = "0" then "1" else "0"

/-- `_M_NEGATE` (lines 662-664): `_M_PCAT(_M_NEGATE,x)` pastes
`_M_NEGATE ## x`.  The table entries it is meant to hit are named
`_M_NEGATE_0` and `_M_NEGATE_1` — with an underscore before the digit —
so the pasted name (`_M_NEGATE0`, `_M_NEGATE1`, ...) never matches a
defined object-like entry and is emitted unexpanded as a junk
identifier. -/
def _M_NEGATE (x : String) : String :=
  let pasted := "_M_NEGATE" ++ x
  if pasted = "_M_NEGATE_0" then "1"
  else if pasted = "_M_NEGATE_1" then "0"
  else pasted

/-- `_M_IS_TRUE` (line 675): `_M_NEGATE(_M_NOT(x))`. -/
def _M_IS_TRUE (x : String) : String := _M_NEGATE (_M_NOT x)

/-- `_M_IF_` (lines 658-660): pastes `_M_IF_ ## x` and applies the
result to the branch pair; only `_M_IF_1` (select the first branch) and
`_M_IF_0` (select the rest) are defined — any other pasted token is an
undefined identifier, leaving the branch pair unexpanded (`none`). -/
def mIfUnderscore {α : Type} (x : String) (t e : α) : Option α :=
  let pasted := "_M_IF_" ++ x
  if pasted = "_M_IF_1" then some t
  else if pasted = "_M_IF_0" then some e
  else none

/-- `_M_IF` (line 676): `_M_IF_(_M_IS_TRUE(p))`. -/
def _M_IF {α : Type} (p : String) (t e : α) : Option α :=
  mIfUnderscore (_M_IS_TRUE p) t e

/-- `_M_IS_COMPARABLE` (line 682): probes whether `_M_COMPARE_ ## x` is
a defined function-like comparator; only `_M_COMPARE_void` exists
(line 461), so the result token is `1` exactly for the token `void`. -/
def _M_IS_COMPARABLE (x : String) : String :=
  if x = "void" then "1" else "0"

/-- `_M_AND` (lines 668-670): pastes `_M_AND_ ## x`; `_M_AND_0`
discards its argument and yields `0`, `_M_AND_1` yields its argument,
any other paste is a junk identifier. -/
def _M_AND (x y : String) : String :=
  let pasted := "_M_AND_" ++ x
  if pasted = "_M_AND_0" then "0"
  else if pasted = "_M_AND_1" then y
  else pasted

/-- `_M_NEQ_COMPARABLE` (line 681), reached only for the comparable pair
`(void, void)`: `_M_COMPARE_void(_M_COMPARE_void)(())` leaves its own
name painted blue during rescanning, so the probe does not see
parentheses and the result token is `0`. -/
def _M_NEQ_COMPARABLE (_x _y : String) : String := "0"

/-- `_M_NOT_EQUAL` (line 683): guards on the comparability of both
operands via `_M_IF_`, dispatching either to `_M_NEQ_COMPARABLE` or to
the constant `1`. -/
def _M_NOT_EQUAL (x y : String) : String :=
  match mIfUnderscore (_M_AND (_M_IS_COMPARABLE x) (_M_IS_COMPARABLE y))
      (_M_NEQ_COMPARABLE x y) "1" with
  | some r => r
  | none => "stuck"

/-- `_M_EQUAL` (line 684): `_M_NEGATE(_M_NOT_EQUAL(x,y))`. -/
def _M_EQUAL (x y : String) : String := _M_NEGATE (_M_NOT_EQUAL x y)

/-- `_M_PARAMS_MOCK_PROTOTYPE` (lines 472-475): tests
`_M_EQUAL(_M_PARAM_TYPE(P),void)` with `_M_IF`; if the first descriptor
has type `void` the projected list covers only the two implicit
mock-support descriptors `M_PARAM_MS, M_PARAM_MAC`, otherwise it covers
those two followed by the full descriptor list.  `none` if the `_M_IF`
selector or the projection itself is stuck on a junk token. -/
def _M_PARAMS_MOCK_PROTOTYPE (ps : List MParam) : Option (List String) :=
  match ps with
  | [] => none
  | p :: rest =>
    match _M_IF (_M_EQUAL (_M_PARAM_TYPE p) "void")
        (_M_PARAMS_PROTOTYPE [M_PARAM_MS, M_PARAM_MAC])
        (_M_PARAMS_PROTOTYPE (M_PARAM_MS :: M_PARAM_MAC :: p :: rest)) with
    | some r => r
    | none => none

/-- `_M_PARAMS_MOCK_DECLARATION` (lines 467-470): same dispatch as
`_M_PARAMS_MOCK_PROTOTYPE`, projecting type-plus-name entries. -/
def _M_PARAMS_MOCK_DECLARATION (ps : List MParam) :
    Option (List (String × Option String)) :=
  match ps with
  | [] => none
  | p :: rest =>
    match _M_IF (_M_EQUAL (_M_PARAM_TYPE p) "void")
        (_M_PARAMS_DECLARATION [M_PARAM_MS, M_PARAM_MAC])
        (_M_PARAMS_DECLARATION (M_PARAM_MS :: M_PARAM_MAC :: p :: rest)) with
    | some r => r
    | none => none

/-- A nine-descriptor parameter list (user arity 9), the smallest arity
on which the `_M_PARAMS_k` dispatch reaches `_M_PARAMS_8` first. -/
def nineIntParams : List MParam :=
  [M_PARAM_INT "int" "a1", M_PARAM_INT "int" "a2", M_PARAM_INT "int" "a3",
   M_PARAM_INT "int" "a4", M_PARAM_INT "int" "a5", M_PARAM_INT "int" "a6",
   M_PARAM_INT "int" "a7", M_PARAM_INT "int" "a8", M_PARAM_INT "int" "a9"]

/-- The expectation-tracking context resolved by the wrapped dispatcher
(line 418): `mock_c()` for the empty scope, `mock_scope_c(scope)` for a
named scope.  The CppUMock runtime itself is external; this type records
which context was requested. -/
inductive MockSupport where
  | global
  | scoped (nm : String)
  deriving DecidableEq

/-- A registration made on a `MockActualCall_c` by the per-descriptor
callback statements of `_M_PARAM_CALLBACK_*` (lines 313-329), named
after the CppUMock accessor invoked.  `V` is the type of runtime
argument values (this layer only forwards them). -/
inductive ParamReg (V : Type) where
  | withBoolParameters (nm : String) (v : V)
  | withIntParameters (nm : String) (v : V)
  | withUnsignedIntParameters (nm : String) (v : V)
  | withLongIntParameters (nm : String) (v : V)
  | withUnsignedLongIntParameters (nm : String) (v : V)
  | withDoubleParameters (nm : String) (v : V)
  | withStringParameters (nm : String) (v : V)
  | withPointerParameters (nm : String) (v : V)
  | withOutputParameter (nm : String) (v : V)
  | withParameterOfType (ty nm : String) (v : V)
  | withOutputParameterOfType (ty nm : String) (v : V)
  | customCode (code : String)
  deriving DecidableEq

/-- The actual-call record begun by `mockSupport->actualCall(_M_STR(FUNC))`
(line 420): tagged with the function name, accumulating parameter
registrations. -/
structure MockActualCall (V : Type) where
  cname : String
  regs : List (ParamReg V)
  deriving DecidableEq

/-- The type of a `MoxieCallFunc_FUNC` call adapter (line 340): invoked
with the mock support, the in-progress actual call, and the original
arguments; its observable effect is on the actual-call record. -/
def MoxieCallFunc (V Args : Type) : Type :=
  MockSupport → MockActualCall V → Args → MockActualCall V

/-- The type of a `MoxieStubFunc_FUNC` return adapter (line 341):
invoked with the same three inputs, producing the call's result. -/
def MoxieStubFunc (V Args Ret : Type) : Type :=
  MockSupport → MockActualCall V → Args → Ret

/-- The `MoxieState` record (lines 13-19).  `mockFlag` is a C `int`;
the adapter fields are nullable pointers, modelled with `Option`. -/
structure MoxieState (V Args Ret : Type) where
  mockFlag : Int
  scope : String
  callFunc : Option (MoxieCallFunc V Args)
  stubFunc : Option (MoxieStubFunc V Args Ret)

/-- The static initializer of `__mState_FUNC` (lines 361-366): disabled,
empty scope, and the two generated default adapters. -/
def initMoxieState {V Args Ret : Type} (defCall : MoxieCallFunc V Args)
    (defStub : MoxieStubFunc V Args Ret) : MoxieState V Args Ret :=
  { mockFlag := 0, scope := "", callFunc := some defCall,
    stubFunc := some defStub }

/-- `__mReset_FUNC` (lines 367-373): reassigns all four fields to the
same values as the static initializer. -/
def mReset {V Args Ret : Type} (defCall : MoxieCallFunc V Args)
    (defStub : MoxieStubFunc V Args Ret) (_st : MoxieState V Args Ret) :
    MoxieState V Args Ret :=
  { mockFlag := 0, scope := "", callFunc := some defCall,
    stubFunc := some defStub }

/-- `__mEnable_FUNC` (lines 374-377): assigns `mockFlag = 1` and touches
nothing else. -/
def mEnable {V Args Ret : Type} (st : MoxieState V Args Ret) :
    MoxieState V Args Ret :=
  { st with mockFlag := 1 }

/-- The `Assert` fallback (lines 335-337): when the including build
defines no `Assert`, the directive defines `Assert(c,...)` to expand to
nothing, so in such (release) builds the condition produces no
diagnostic whatever its value.  The result is the (absent) diagnostic. -/
def Assert (_cond : Bool) : Option String := none

/-- `__mSetScope_FUNC` (lines 378-382): asserts `mockFlag` (a release
no-op) and assigns the scope.  The second component is the diagnostic
produced by the `Assert` line. -/
def mSetScope {V Args Ret : Type} (st : MoxieState V Args Ret)
    (scope : String) : MoxieState V Args Ret × Option String :=
  ({ st with scope := scope }, Assert (st.mockFlag != 0))

/-- `__mSetCallFunc_FUNC` (lines 383-387): asserts `mockFlag` (a release
no-op) and assigns the call adapter (possibly `NULL`). -/
def mSetCallFunc {V Args Ret : Type} (st : MoxieState V Args Ret)
    (f : Option (MoxieCallFunc V Args)) :
    MoxieState V Args Ret × Option String :=
  ({ st with callFunc := f }, Assert (st.mockFlag != 0))

/-- `__mSetStubFunc_FUNC` (lines 388-392): asserts `mockFlag` (a release
no-op) and assigns the return adapter (possibly `NULL`). -/
def mSetStubFunc {V Args Ret : Type} (st : MoxieState V Args Ret)
    (f : Option (MoxieStubFunc V Args Ret)) :
    MoxieState V Args Ret × Option String :=
  ({ st with stubFunc := f }, Assert (st.mockFlag != 0))

/-- A configuration operation other than reset: enable, set-scope,
set-call-adapter, or set-return-adapter. -/
inductive MoxieOp (V Args Ret : Type) where
  | enable
  | setScope (s : String)
  | setCallFunc (f : Option (MoxieCallFunc V Args))
  | setStubFunc (f : Option (MoxieStubFunc V Args Ret))

/-- Applies one configuration operation to the state (the accessor's
state component). -/
def applyOp {V Args Ret : Type} (st : MoxieState V Args Ret) :
    MoxieOp V Args Ret → MoxieState V Args Ret
  | MoxieOp.enable => mEnable st
  | MoxieOp.setScope s => (mSetScope st s).1
  | MoxieOp.setCallFunc f => (mSetCallFunc st f).1
  | MoxieOp.setStubFunc f => (mSetStubFunc st f).1

/-- Applies a sequence of configuration operations, oldest first. -/
def applyOps {V Args Ret : Type} (st : MoxieState V Args Ret)
    (ops : List (MoxieOp V Args Ret)) : MoxieState V Args Ret :=
  ops.foldl applyOp st

/-- Scope resolution of the wrapped dispatcher (line 418):
`(scope[0] == '\0') ? mock_c() : mock_scope_c(scope)`. -/
def resolveMockScope (scope : String) : MockSupport :=
  if scope = "" then MockSupport.global else MockSupport.scoped scope

/-- The call-adapter step of the wrapped dispatcher (lines 422-426):
if the stored `callFunc` is non-null it is invoked on (mock support,
actual call, original arguments); the boolean records whether it was
invoked. -/
def runCallFunc {V Args : Type} (cf : Option (MoxieCallFunc V Args))
    (ms : MockSupport) (ac : MockActualCall V) (args : Args) :
    MockActualCall V × Bool :=
  match cf with
  | some f => (f ms ac args, true)
  | none => (ac, false)

/-- The observable outcome of one call through the wrapped dispatcher:
its result, which tracking context (if any) it resolved, the actual-call
records it created on the collaborator, whether each adapter was
invoked, and how many direct `__real_FUNC` delegations it made. -/
structure WrapResult (V Args Ret : Type) where
  ret : Ret
  scopeResolved : Option MockSupport
  actualCalls : List (MockActualCall V)
  callFuncInvoked : Bool
  stubFuncInvoked : Bool
  realCalls : Nat

/-- The observables of calling the real implementation `__real_FUNC`
directly: its result and one real invocation, with no tracking
activity. -/
def callRealDirect {V Args Ret : Type} (real : Args → Ret) (args : Args) :
    WrapResult V Args Ret :=
  { ret := real args, scopeResolved := none, actualCalls := [],
    callFuncInvoked := false, stubFuncInvoked := false, realCalls := 1 }

/-- Statement-level semantics of `__wrap_FUNC` (lines 404-440), the
wrapped dispatcher.  The state is read at call entry.  Fast path
(lines 409-412): when `mockFlag` is zero, delegate to `__real_FUNC`
with the original arguments and return its result.  Slow path
(lines 414-439): resolve the tracking context from the scope, begin an
actual call tagged `_M_STR(FUNC)`, invoke the call adapter if non-null,
then either return the return adapter's result (non-null `stubFunc`,
lines 429-433) or delegate to `__real_FUNC` (lines 434-438). -/
def wrapFunc {V Args Ret : Type} (funcName : String)
    (st : MoxieState V Args Ret) (real : Args → Ret) (args : Args) :
    WrapResult V Args Ret :=
  if st.mockFlag = 0 then
    { ret := real args, scopeResolved := none, actualCalls := [],
      callFuncInvoked := false, stubFuncInvoked := false, realCalls := 1 }
  else
    let ms := resolveMockScope st.scope
    let ac0 : MockActualCall V := { cname := funcName, regs := [] }
    let step := runCallFunc st.callFunc ms ac0 args
    match st.stubFunc with
    | some sf =>
      { ret := sf ms step.1 args, scopeResolved := some ms,
        actualCalls := [step.1], callFuncInvoked := step.2,
        stubFuncInvoked := true, realCalls := 0 }
    | none =>
      { ret := real args, scopeResolved := some ms,
        actualCalls := [step.1], callFuncInvoked := step.2,
        stubFuncInvoked := false, realCalls := 1 }

/-- The `_M_PARAM_CALLBACK_*` table (lines 313-329), applied to a
descriptor and the runtime value of its parameter: the `_VOID`, `_MS`,
`_MAC`, and `_IGNORE` rows expand to nothing; the `_CUSTOM` row runs the
caller-supplied code; every other row registers the matching CppUMock
accessor with `_M_STR(PNAME)` and the parameter value (the typed-pointer
rows additionally pass `_M_STR(PTYPE)`). -/
def _M_PARAM_CALLBACK {V : Type} (p : MParam) (v : V) : List (ParamReg V) :=
  match p.kind with
  | PKind.pvoid => []
  | PKind.ms => []
  | PKind.mac => []
  | PKind.pbool => [ParamReg.withBoolParameters p.pname v]
  | PKind.pint => [ParamReg.withIntParameters p.pname v]
  | PKind.puint => [ParamReg.withUnsignedIntParameters p.pname v]
  | PKind.plong => [ParamReg.withLongIntParameters p.pname v]
  | PKind.pulong => [ParamReg.withUnsignedLongIntParameters p.pname v]
  | PKind.pdouble => [ParamReg.withDoubleParameters p.pname v]
  | PKind.pcharPtr => [ParamReg.withStringParameters p.pname v]
  | PKind.pinPtr => [ParamReg.withPointerParameters p.pname v]
  | PKind.poutPtr => [ParamReg.withOutputParameter p.pname v]
  | PKind.pinTypePtr => [ParamReg.withParameterOfType p.ptype p.pname v]
  | PKind.poutTypePtr => [ParamReg.withOutputParameterOfType p.ptype p.pname v]
  | PKind.pignore => []
  | PKind.pcustom => [ParamReg.customCode p.custom]

/-- Executes the callback statements of a descriptor list in order,
pairing each descriptor positionally with the runtime value of its
parameter. -/
def mCallRegs {V : Type} : List MParam → List V → List (ParamReg V)
  | q :: qs, v :: vs => _M_PARAM_CALLBACK q v ++ mCallRegs qs vs
  | _, _ => []

/-- `__mCallFunc_FUNC` (lines 442-446), the generated call-recording
adapter: its body is the `_M_PARAMS_FUNC_IMPL` statement list over the
declared descriptors, executed against the actual call.  When the
expansion is stuck (arity at least 9, see line 507) no adapter is
generated; that unreachable branch leaves the record unchanged. -/
def mCallFunc {V : Type} (ps : List MParam) : MoxieCallFunc V (List V) :=
  fun _ms ac args =>
    match funcImplParams ps with
    | some qs => { ac with regs := ac.regs ++ mCallRegs qs args }
    | none => ac

/-- What the external expectation framework answers for one invocation:
whether a return value is configured for the actual call
(`actualCall->hasReturnValue()`, line 451), and, when it is, the value
the kind-specific `_M_RETURN_CALLBACK_*` accessor (lines 237-247)
converts and returns. -/
structure MockEnv (Ret : Type) where
  hasReturnValue : Bool
  returnValue : Ret

/-- `__mStubFunc_FUNC` (lines 448-459), the generated return-stubbing
adapter: if the framework reports a configured return value, convert
and return it through the kind-specific accessor; otherwise delegate to
`__real_FUNC` with the original arguments. -/
def mStubFunc {V Args Ret : Type} (env : MockEnv Ret) (real : Args → Ret) :
    MoxieStubFunc V Args Ret :=
  fun _ms _ac args =>
    if env.hasReturnValue then env.returnValue else real args

/-- Spec-side registration table, written from the spec's
parameter-kind vocabulary (spec section 6): boolean, signed integer,
unsigned integer, signed long, unsigned long, double, C-string, opaque
input pointer, opaque output pointer, typed input pointer with its type
tag, typed output pointer with its type tag — each mapping to the
distinct expectation-comparison accessor of that kind, passing the
parameter's name and value; `ignored` registers nothing; `custom` runs
caller-supplied logic.  The void and implicit mock-support descriptors
request no tracking. -/
def specParamAccessor {V : Type} (p : MParam) (v : V) : List (ParamReg V) :=
  match p.kind with
  | PKind.pbool => [ParamReg.withBoolParameters p.pname v]
  | PKind.pint => [ParamReg.withIntParameters p.pname v]
  | PKind.puint => [ParamReg.withUnsignedIntParameters p.pname v]
  | PKind.plong => [ParamReg.withLongIntParameters p.pname v]
  | PKind.pulong => [ParamReg.withUnsignedLongIntParameters p.pname v]
  | PKind.pdouble => [ParamReg.withDoubleParameters p.pname v]
  | PKind.pcharPtr => [ParamReg.withStringParameters p.pname v]
  | PKind.pinPtr => [ParamReg.withPointerParameters p.pname v]
  | PKind.poutPtr => [ParamReg.withOutputParameter p.pname v]
  | PKind.pinTypePtr => [ParamReg.withParameterOfType p.ptype p.pname v]
  | PKind.poutTypePtr => [ParamReg.withOutputParameterOfType p.ptype p.pname v]
  | PKind.pignore => []
  | PKind.pcustom => [ParamReg.customCode p.custom]
  | _ => []

/-- The registrations the spec prescribes for a declared descriptor
list and its argument values, in declaration order. -/
def specRegs {V : Type} : List MParam → List V → List (ParamReg V)
  | q :: qs, v :: vs => specParamAccessor q v ++ specRegs qs vs
  | _, _ => []

/-- One physical source line of a `define` directive's region: the
number of left-brace and right-brace tokens on the line, and whether the
line is spliced into the next one.  ISO C (translation phase 2) deletes
only a backslash character IMMEDIATELY followed by the new-line
character; a backslash separated from the new-line by a space does not
splice, and a line with no trailing backslash never does. -/
structure SrcLine where
  opens : Nat
  closes : Nat
  spliced : Bool
  deriving DecidableEq

/-- The physical lines a `define` directive actually covers: the first
line and, as long as the previous line is spliced, each following line;
the first unspliced line ends the directive. -/
def directiveLines : List SrcLine → List SrcLine
  | [] => []
  | l :: rest => if l.spliced then l :: directiveLines rest else [l]

/-- Net brace balance (opens minus closes) over a run of lines. -/
def braceBalance (ls : List SrcLine) : Int :=
  ls.foldl (fun a l => a + (l.opens : Int) - (l.closes : Int)) 0

/-- Lines 404-440 of moxie.h, the region of the
`_M_IMPLEMENT_MOCK_WRAP` define, one `SrcLine` per physical line.
Every line up to 436 ends in backslash-newline.  Line 437 (the
slow-path `__real_FUNC` delegation) ends in backslash, SPACE, newline —
the only trailing whitespace in the whole header — so it is not
spliced under ISO line splicing.  Lines 438-439 end in
backslash-newline and line 440 is the bare closing brace. -/
def wrapDefineLines : List SrcLine :=
  [⟨0, 0, true⟩,   -- 404 define _M_IMPLEMENT_MOCK_WRAP(RET,FUNC,...)
   ⟨0, 0, true⟩,   -- 405 _M_RETURN_TYPE(RET) __wrap_##FUNC(...)
   ⟨1, 0, true⟩,   -- 406 opening brace of the function body
   ⟨0, 0, true⟩,   -- 407 int mockFlag = __mState_##FUNC.mockFlag;
   ⟨0, 0, true⟩,   -- 408 fast-path comment
   ⟨0, 0, true⟩,   -- 409 if (!mockFlag)
   ⟨1, 0, true⟩,   -- 410 opening brace of the fast path
   ⟨0, 0, true⟩,   -- 411 _M_RETURN(RET) __real_##FUNC(...);
   ⟨0, 1, true⟩,   -- 412 closing brace of the fast path
   ⟨0, 0, true⟩,   -- 413 slow-path comment
   ⟨0, 0, true⟩,   -- 414 else
   ⟨1, 0, true⟩,   -- 415 opening brace of the slow path
   ⟨0, 0, true⟩,   -- 416 resolve-scope comment
   ⟨0, 0, true⟩,   -- 417 char *scope = __mState_##FUNC.scope;
   ⟨0, 0, true⟩,   -- 418 MockSupport_c *mockSupport = ...;
   ⟨0, 0, true⟩,   -- 419 process-call comment
   ⟨0, 0, true⟩,   -- 420 MockActualCall_c *actualCall = ...;
   ⟨0, 0, true⟩,   -- 421 defer-to-callFunc comment
   ⟨0, 0, true⟩,   -- 422 MoxieCallFunc_##FUNC callFunc = ...;
   ⟨0, 0, true⟩,   -- 423 if (callFunc != NULL)
   ⟨1, 0, true⟩,   -- 424 opening brace
   ⟨0, 0, true⟩,   -- 425 (*callFunc)(...);
   ⟨0, 1, true⟩,   -- 426 closing brace
   ⟨0, 0, true⟩,   -- 427 process-return comment
   ⟨0, 0, true⟩,   -- 428 defer-to-stubFunc comment
   ⟨0, 0, true⟩,   -- 429 MoxieStubFunc_##FUNC stubFunc = ...;
   ⟨0, 0, true⟩,   -- 430 if (stubFunc != NULL)
   ⟨1, 0, true⟩,   -- 431 opening brace
   ⟨0, 0, true⟩,   -- 432 _M_RETURN(RET) (*stubFunc)(...);
   ⟨0, 1, true⟩,   -- 433 closing brace
   ⟨0, 0, true⟩,   -- 434 defer-to-realFunc comment
   ⟨0, 0, true⟩,   -- 435 else
   ⟨1, 0, true⟩,   -- 436 opening brace
   ⟨0, 0, false⟩,  -- 437 _M_RETURN(RET) __real_##FUNC(...); backslash SPACE newline
   ⟨0, 1, true⟩,   -- 438 closing brace of the else block
   ⟨0, 1, true⟩,   -- 439 closing brace of the slow path
   ⟨0, 1, false⟩]  -- 440 closing brace of the function body

/-- Lines 448-459 of moxie.h, the region of the
`_M_IMPLEMENT_MOCK_STUB` define, one `SrcLine` per physical line.
Line 457 (the `__real_FUNC` delegation of the else branch) has NO
trailing backslash at all, so the directive ends there; lines 458-459
carry the two closing braces. -/
def stubDefineLines : List SrcLine :=
  [⟨0, 0, true⟩,   -- 448 define _M_IMPLEMENT_MOCK_STUB(RET,FUNC,...)
   ⟨0, 0, true⟩,   -- 449 _M_RETURN_TYPE(RET) __mStubFunc_##FUNC(...)
   ⟨1, 0, true⟩,   -- 450 opening brace of the function body
   ⟨0, 0, true⟩,   -- 451 if (actualCall->hasReturnValue())
   ⟨1, 0, true⟩,   -- 452 opening brace of the then branch
   ⟨0, 0, true⟩,   -- 453 _M_RETURN_FUNC_IMPL(RET);
   ⟨0, 1, true⟩,   -- 454 closing brace of the then branch
   ⟨0, 0, true⟩,   -- 455 else
   ⟨1, 0, true⟩,   -- 456 opening brace of the else branch
   ⟨0, 0, false⟩,  -- 457 _M_RETURN(RET) __real_##FUNC(...); no backslash
   ⟨0, 1, true⟩,   -- 458 closing brace of the else branch
   ⟨0, 1, false⟩]  -- 459 closing brace of the function body

/-- The return-type tokens of a generated accessor: as declared by
`_M_DECLARE_MOCK` and as written at its definition in
`_M_IMPLEMENT_MOCK_PREFACE` (`none` when the definition carries no
return type specifier, which C99 and later forbid). -/
structure CAccessor where
  aname : String
  declaredRet : Option String
  definedRet : Option String
  deriving DecidableEq

/-- The five configuration accessors: declared return types from
lines 342-346 (`extern void` for all five) and definition return types
from lines 367-392 — `void` on lines 367, 374, and 378, but the
definitions of `__mSetCallFunc_FUNC` (line 383) and
`__mSetStubFunc_FUNC` (line 388) begin directly with the pasted
identifier, with no return type specifier. -/
def moxieAccessors : List CAccessor :=
  [⟨"__mReset_", some "void", some "void"⟩,
   ⟨"__mEnable_", some "void", some "void"⟩,
   ⟨"__mSetScope_", some "void", some "void"⟩,
   ⟨"__mSetCallFunc_", some "void", none⟩,
   ⟨"__mSetStubFunc_", some "void", none⟩]

/-- A sample return adapter used to instantiate theorems with
hypotheses at concrete inputs. -/
def sampleStub : MoxieStubFunc Int Int Int := fun _ _ a => a * a

/-- A sample enabled state with a named scope, no call adapter, and the
sample return adapter installed. -/
def sampleStubState : MoxieState Int Int Int :=
  ⟨1, "MATH", none, some sampleStub⟩

/-- A sample five-descriptor list exercising the tracked, ignored,
custom, and typed-pointer kinds. -/
def samplePs : List MParam :=
  [M_PARAM_BOOL "bool" "b", M_PARAM_UINT "unsigned" "u",
   M_PARAM_IGNORE "int" "skip", M_PARAM_CUSTOM "T" "c" "code",
   M_PARAM_OUT_TYPE_PTR "S" "outp"]

/-- Helper: a `_M_PARAMS_k` expansion whose descriptor count matches
`k + 1` and stays at most 8 never reaches the broken `_M_PARAMS_8`
template, and its projected entries are exactly the descriptors in
order. -/
theorem mParamsK_complete {α : Type} (proj : MParam → α) :
    ∀ (ps : List MParam) (k idx : Nat), ps.length = k + 1 → k + 1 ≤ 8 →
      pexpEntries proj (mParamsK k idx ps) = some (ps.map proj) := by
  intro ps
  induction ps with
  | nil => intro k idx h _; exact absurd h (by simp)
  | cons p rest ih =>
    intro k idx h hle
    cases k with
    | zero =>
      have h0 : rest.length = 0 := by simpa using h
      have hr : rest = [] := by simpa using h0
      subst hr
      rfl
    | succ k =>
      have hr : rest.length = k + 1 := by simpa using h
      have hne : ¬ (k + 1 = 8) := by omega
      have ihr := ih k (_M_INC idx) hr (by omega)
      simp [mParamsK, hne, pexpEntries, ihr]

/-- Helper: for descriptor lists of length at most 8 every projection of
`_M_PARAMS` yields exactly one entry per descriptor, in order. -/
theorem projectParams_complete {α : Type} (proj : MParam → α)
    (ps : List MParam) (h : ps.length ≤ 8) :
    projectParams proj ps = some (ps.map proj) := by
  cases ps with
  | nil => rfl
  | cons p rest =>
    have hlen : (p :: rest).length = rest.length + 1 := by simp
    have hnv : _M_N_VA_ARGS (p :: rest) = rest.length := by
      simp [_M_N_VA_ARGS]
    unfold projectParams _M_PARAMS
    rw [hnv]
    exact mParamsK_complete proj (p :: rest) rest.length 0 hlen
      (by simpa using h)

/-- Helper: the source callback table agrees, kind by kind, with the
registration the spec's vocabulary prescribes. -/
theorem paramCallback_eq_spec {V : Type} (p : MParam) (v : V) :
    _M_PARAM_CALLBACK p v = specParamAccessor p v := by
  cases hk : p.kind <;> simp [_M_PARAM_CALLBACK, specParamAccessor, hk]

/-- Helper: running the callback statements over a descriptor list
produces exactly the spec-prescribed registrations, in order. -/
theorem mCallRegs_eq_specRegs {V : Type} :
    ∀ (ps : List MParam) (args : List V),
      mCallRegs ps args = specRegs ps args := by
  intro ps
  induction ps with
  | nil => intro args; cases args <;> rfl
  | cons p rest ih =>
    intro args
    cases args with
    | nil => rfl
    | cons v vs => simp [mCallRegs, specRegs, paramCallback_eq_spec, ih vs]

/-- C1: the claim states that for every supported arity 0-31 the
type-only, type-plus-name, and name-only projections each yield exactly
one entry per descriptor, in the original order.  Evaluation refutes it
at arity 9, the smallest arity whose dispatch reaches `_M_PARAMS_8`
(line 507), where the missing `(` after `_M_PARAMS_7` emits the literal
undefined identifier `_M_PARAMS_7CALLBACK` and the raw remaining
arguments instead of projecting descriptors 2 through 9; all three
projections are stuck, while the same projections at arity 8 are
complete. -/
theorem c1_projections_stuck_at_arity_nine :
    nineIntParams.length = 9 ∧ 9 ≤ 31 ∧
    _M_PARAMS nineIntParams =
      [PExp.entry false 0 (M_PARAM_INT "int" "a1"),
       PExp.stuck 1 (nineIntParams.drop 1)] ∧
    _M_PARAMS_PROTOTYPE nineIntParams = none ∧
    _M_PARAMS_DECLARATION nineIntParams = none ∧
    _M_PARAMS_CALL nineIntParams = none ∧
    _M_PARAMS_PROTOTYPE (nineIntParams.take 8) =
      some ["int", "int", "int", "int", "int", "int", "int", "int"] := by
  decide

/-- C2: the claim states that with the enabled flag false the wrapped
dispatcher behaves exactly like a direct call of the real
implementation.  The `_M_IMPLEMENT_MOCK_WRAP` define cannot produce
that dispatcher: line 437 ends in backslash-space-newline, which ISO C
line splicing does not join, so the directive's replacement covers only
the 34 physical lines 404-437 and is brace-unbalanced (three braces
left open), while the block's final three closing braces (lines
438-440) are left outside the define at header scope.  The full 37-line
block balances, which is the evident intent. -/
theorem c2_wrap_define_truncated :
    braceBalance (directiveLines wrapDefineLines) = 3 ∧
    (directiveLines wrapDefineLines).length = 34 ∧
    wrapDefineLines.length = 37 ∧
    braceBalance wrapDefineLines = 0 ∧
    braceBalance (wrapDefineLines.drop 34) = -3 := by
  decide

/-- C3: with the record enabled and a non-null return adapter installed,
the wrapped dispatcher's result is exactly the adapter's computation on
the resolved tracking context, the actual-call record left by the
call-adapter step, and the original arguments, and the dispatcher makes
no direct delegation to the real implementation on that call. -/
theorem c3_stub_supplies_result {V Args Ret : Type} (funcName : String)
    (st : MoxieState V Args Ret) (real : Args → Ret) (args : Args)
    (sf : MoxieStubFunc V Args Ret)
    (hOn : st.mockFlag ≠ 0) (hs : st.stubFunc = some sf) :
    (wrapFunc funcName st real args).ret =
      sf (resolveMockScope st.scope)
        (runCallFunc st.callFunc (resolveMockScope st.scope)
          { cname := funcName, regs := [] } args).1 args ∧
    (wrapFunc funcName st real args).realCalls = 0 ∧
    (wrapFunc funcName st real args).stubFuncInvoked = true := by
  unfold wrapFunc
  rw [if_neg hOn, hs]
  exact ⟨rfl, rfl, rfl⟩

/-- Witness for C3 at a concrete enabled state with a squaring return
adapter. -/
theorem c3_witness :
    sampleStubState.mockFlag ≠ 0 ∧
    sampleStubState.stubFunc = some sampleStub ∧
    ((wrapFunc "f" sampleStubState (fun a => a + 1) 7).ret =
      sampleStub (resolveMockScope sampleStubState.scope)
        (runCallFunc sampleStubState.callFunc
          (resolveMockScope sampleStubState.scope)
          { cname := "f", regs := [] } 7).1 7 ∧
     (wrapFunc "f" sampleStubState (fun a => a + 1) 7).realCalls = 0 ∧
     (wrapFunc "f" sampleStubState (fun a => a + 1) 7).stubFuncInvoked =
       true) :=
  ⟨by decide, rfl,
   c3_stub_supplies_result "f" sampleStubState (fun a => a + 1) 7 sampleStub
     (by decide) rfl⟩

/-- C4: the claim states that an enabled call with the default adapters
and no configured return value returns the real implementation's result
and records one actual call.  The `_M_IMPLEMENT_MOCK_STUB` define cannot
produce the default return adapter: line 457 has no trailing backslash,
so the directive's replacement covers only the 10 physical lines
448-457 and is brace-unbalanced (two braces left open), while the
block's final two closing braces (lines 458-459) are left outside the
define at header scope.  The full 12-line block balances, which is the
evident intent. -/
theorem c4_stub_define_truncated :
    braceBalance (directiveLines stubDefineLines) = 2 ∧
    (directiveLines stubDefineLines).length = 10 ∧
    stubDefineLines.length = 12 ∧
    braceBalance stubDefineLines = 0 ∧
    braceBalance (stubDefineLines.drop 10) = -2 := by
  decide

/-- C5: after any sequence of enable, set-scope, set-call-adapter, and
set-return-adapter operations, reset restores all four fields of the
state record to the just-initialized default: disabled, empty scope, and
the two generated default adapters. -/
theorem c5_reset_restores_initial_state {V Args Ret : Type}
    (defCall : MoxieCallFunc V Args) (defStub : MoxieStubFunc V Args Ret)
    (ops : List (MoxieOp V Args Ret)) :
    mReset defCall defStub (applyOps (initMoxieState defCall defStub) ops) =
      initMoxieState defCall defStub ∧
    (initMoxieState defCall defStub).mockFlag = 0 ∧
    (initMoxieState defCall defStub).scope = "" ∧
    (initMoxieState defCall defStub).callFunc = some defCall ∧
    (initMoxieState defCall defStub).stubFunc = some defStub :=
  ⟨rfl, rfl, rfl, rfl, rfl⟩

/-- C6: enable sets the enabled flag to one and leaves the scope,
call-adapter, and return-adapter fields unchanged, whatever the prior
state. -/
theorem c6_enable_sets_only_flag {V Args Ret : Type}
    (st : MoxieState V Args Ret) :
    (mEnable st).mockFlag = 1 ∧ (mEnable st).scope = st.scope ∧
    (mEnable st).callFunc = st.callFunc ∧
    (mEnable st).stubFunc = st.stubFunc :=
  ⟨rfl, rfl, rfl, rfl⟩

/-- C7: the claim states that the void marker alone yields
zero-parameter signatures: the plain projections the single token
`void`, the mock-adapter projections only the two implicit mock-support
parameters.  The plain projections do yield `void` with no name, but
the mock-adapter projections are stuck: `_M_NEGATE` (line 662) pastes
`_M_NEGATE ## x` while its table entries are `_M_NEGATE_0` and
`_M_NEGATE_1`, so `_M_EQUAL(void,void)` leaves the junk token
`_M_NEGATE0` and the `_M_IF` dispatch of lines 467-480 pastes the
undefined identifier `_M_IF__M_NEGATE0` instead of selecting the
`M_PARAM_MS, M_PARAM_MAC` branch (whose own projection is shown well
formed in the last conjunct). -/
theorem c7_void_marker_mock_projections_stuck :
    _M_PARAMS_PROTOTYPE [M_PARAM_VOID] = some ["void"] ∧
    _M_PARAMS_DECLARATION [M_PARAM_VOID] = some [("void", none)] ∧
    _M_NEGATE "0" = "_M_NEGATE0" ∧
    _M_EQUAL "void" "void" = "_M_NEGATE0" ∧
    (_M_IF (_M_EQUAL "void" "void") (0 : Nat) 1) = none ∧
    _M_PARAMS_MOCK_PROTOTYPE [M_PARAM_VOID] = none ∧
    _M_PARAMS_MOCK_DECLARATION [M_PARAM_VOID] = none ∧
    _M_PARAMS_PROTOTYPE [M_PARAM_MS, M_PARAM_MAC] =
      some ["MockSupport_c*", "MockActualCall_c*"] := by
  decide

/-- C8: over any declared descriptor list whose expansion is well
formed (at most 8 descriptors, see C1) and argument values aligned with
it, the generated call-recording adapter keeps the actual call's name
and appends exactly the spec-prescribed registration per descriptor, in
order: the matching expectation-comparison accessor with the
parameter's name and value (type tag included for the typed-pointer
kinds), nothing for ignored descriptors, and the caller-supplied logic
for custom descriptors. -/
theorem c8_call_adapter_matches_spec {V : Type}
    (ps : List MParam) (args : List V)
    (h8 : ps.length ≤ 8) (_hlen : args.length = ps.length)
    (ms : MockSupport) (ac : MockActualCall V) :
    (mCallFunc ps ms ac args).cname = ac.cname ∧
    (mCallFunc ps ms ac args).regs = ac.regs ++ specRegs ps args := by
  have hfi : funcImplParams ps = some ps := by
    have hp := projectParams_complete id ps h8
    simpa [funcImplParams, List.map_id] using hp
  refine ⟨?_, ?_⟩
  · simp [mCallFunc, hfi]
  · simp [mCallFunc, hfi, mCallRegs_eq_specRegs]

/-- Witness for C8 at a concrete five-descriptor list and value list. -/
theorem c8_witness :
    samplePs.length ≤ 8 ∧
    ([10, 11, 12, 13, 14] : List Int).length = samplePs.length ∧
    ((mCallFunc samplePs MockSupport.global ⟨"f", []⟩
        ([10, 11, 12, 13, 14] : List Int)).cname =
      (⟨"f", []⟩ : MockActualCall Int).cname ∧
     (mCallFunc samplePs MockSupport.global ⟨"f", []⟩
        ([10, 11, 12, 13, 14] : List Int)).regs =
      (⟨"f", []⟩ : MockActualCall Int).regs ++
        specRegs samplePs ([10, 11, 12, 13, 14] : List Int)) :=
  ⟨by decide, by decide,
   c8_call_adapter_matches_spec samplePs ([10, 11, 12, 13, 14] : List Int)
     (by decide) (by decide) MockSupport.global ⟨"f", []⟩⟩

/-- C9: the claim states that mutating scope or adapters while disabled
is surfaced only through the optional `Assert` line — a no-op when the
including build defines no `Assert` — with the mutation still taking
effect.  That release semantics holds (conjuncts two through seven, at
a disabled state), but the code slips on the accessors themselves: the
definitions of `__mSetCallFunc_FUNC` (line 383) and `__mSetStubFunc_FUNC`
(line 388) carry no return type, conflicting with the `extern void`
prototypes of lines 345-346 (first conjunct), so a translation unit
using both the declaration and implementation entry points is
rejected. -/
theorem c9_disabled_mutation_and_missing_void :
    (moxieAccessors.map fun a => a.definedRet == a.declaredRet) =
      [true, true, true, false, false] ∧
    (mSetScope (⟨0, "", none, none⟩ : MoxieState Int Int Int) "MATH").2 =
      none ∧
    (mSetScope (⟨0, "", none, none⟩ : MoxieState Int Int Int)
        "MATH").1.scope = "MATH" ∧
    (mSetCallFunc (⟨0, "", none, none⟩ : MoxieState Int Int Int)
        (some fun _ ac _ => ac)).2 = none ∧
    ((mSetCallFunc (⟨0, "", none, none⟩ : MoxieState Int Int Int)
        (some fun _ ac _ => ac)).1.callFunc).isSome = true ∧
    (mSetStubFunc (⟨0, "", none, none⟩ : MoxieState Int Int Int)
        (some fun _ _ a => a)).2 = none ∧
    ((mSetStubFunc (⟨0, "", none, none⟩ : MoxieState Int Int Int)
        (some fun _ _ a => a)).1.stubFunc).isSome = true :=
  ⟨by decide, rfl, rfl, rfl, rfl, rfl, rfl⟩

/-- C10: the claim states that each public accessor macro expands, by
token concatenation, to the single identifier of the generated accessor
(`__mReset_FUNC` and so on, as declared by `_M_DECLARE_MOCK`).
Evaluation refutes it: the replacement lists use the stringizing `#`
operator, so `Moxie_reset(sqrt)` expands to the identifier `__mReset_`
followed by the string literal "sqrt" — not the identifier
`__mReset_sqrt` the declaration entry point declares — and likewise for
the other four accessor macros. -/
theorem c10_accessor_macros_stringize :
    Moxie_reset "sqrt" = [CToken.ident "__mReset_", CToken.strLit "sqrt"] ∧
    Moxie_reset "sqrt" ≠ [CToken.ident (declaredResetName "sqrt")] ∧
    Moxie_enable "sqrt" ≠ [CToken.ident (declaredEnableName "sqrt")] ∧
    Moxie_setScope "sqrt" ≠ [CToken.ident (declaredSetScopeName "sqrt")] ∧
    Moxie_setCallFunc "sqrt" ≠
      [CToken.ident (declaredSetCallFuncName "sqrt")] ∧
    Moxie_setStubFunc "sqrt" ≠
      [CToken.ident (declaredSetStubFuncName "sqrt")] ∧
    declaredResetName "sqrt" = "__mReset_sqrt" := by
  decide

/-- Statement-level companion to C2: over the runtime model of the
dispatcher's statements, the disabled fast path is observably identical
to a direct call of the real implementation (the define-level slip is
the subject of the C2 theorem). -/
theorem wrapFunc_disabled_refines_real {V Args Ret : Type}
    (funcName : String) (st : MoxieState V Args Ret) (real : Args → Ret)
    (args : Args) (h : st.mockFlag = 0) :
    wrapFunc funcName st real args = callRealDirect real args := by
  simp [wrapFunc, callRealDirect, h]

/-- Statement-level companion to C4: over the runtime model, an enabled
call with the generated default adapters and no configured return value
yields the real implementation's result and exactly one actual-call
record tagged with the function's name (the define-level slip is the
subject of the C4 theorem). -/
theorem wrapFunc_default_adapters_delegate {V Ret : Type}
    (funcName : String) (ps : List MParam) (m : Int) (s : String)
    (env : MockEnv Ret) (real : List V → Ret) (args : List V)
    (hm : m ≠ 0) (henv : env.hasReturnValue = false) :
    (wrapFunc funcName
        (⟨m, s, some (mCallFunc ps), some (mStubFunc env real)⟩ :
          MoxieState V (List V) Ret) real args).ret = real args ∧
    ((wrapFunc funcName
        (⟨m, s, some (mCallFunc ps), some (mStubFunc env real)⟩ :
          MoxieState V (List V) Ret) real args).actualCalls.map
      MockActualCall.cname) = [funcName] := by
  cases hfi : funcImplParams ps with
  | none =>
    refine ⟨?_, ?_⟩ <;>
      simp [wrapFunc, hm, runCallFunc, mCallFunc, mStubFunc, henv, hfi]
  | some qs =>
    refine ⟨?_, ?_⟩ <;>
      simp [wrapFunc, hm, runCallFunc, mCallFunc, mStubFunc, henv, hfi]

end Moxie


